import Mathlib

/-!
Verification of the candle-pattern trading bot (`patterns.py`, `trader.py`,
`data_fetch.py`, `main.py`).

Numbers are modelled as exact rationals (`ℚ`).  The repository imports an
`indicators` module (ema / rsi / macd / atr) whose source file is not part of
the repository snapshot; those four functions are modelled from the spec
(§4.1) and are marked as such in their doc comments.  Everything else is
translated directly from the Python sources.
-/

namespace CandleBot

/-- One OHLCV candle, as used by `patterns.py` (the `start` timestamp column is
never read by detection and is omitted). -/
structure Candle where
  «open» : ℚ
  high : ℚ
  low : ℚ
  close : ℚ
  volume : ℚ
  deriving DecidableEq, Repr

/-- Direction of a detected pattern (`"LONG"` / `"SHORT"` in the Python dict). -/
inductive Side where
  | LONG
  | SHORT
  deriving DecidableEq, Repr

/-- The signal dictionary returned by `detect_three_white_soldiers` /
`detect_three_black_crows`.  Indicator fields that the Python code can fill
with `NaN` (insufficient history) are `Option ℚ`. -/
structure Signal where
  side : Side
  entryClose : ℚ
  entryRetest : ℚ
  sl : ℚ
  tp : ℚ
  atr : ℚ
  ema50 : Option ℚ
  ema200 : Option ℚ
  rsi : Option ℚ
  macdHist : Option ℚ
  deriving DecidableEq, Repr

/-- The keyword arguments of the two detectors in `patterns.py` (the wick
bound is `max_upper_wick` for the LONG detector and `max_lower_wick` for the
SHORT one — `main.py` passes separate values per call). -/
structure Config where
  useEma : Bool
  useRsi : Bool
  useMacd : Bool
  useVol : Bool
  minBodyRatio : ℚ
  maxWick : ℚ
  rsiMin : ℚ
  rsiMax : ℚ
  macdTol : ℚ
  volMinRatio : ℚ
  relax : Bool
  useLastCandle : Bool
  deriving DecidableEq, Repr

/-- The float literal `1e-12` used as range clamp in `patterns.py`. -/
def epsQ : ℚ := 1 / 10 ^ 12

/-- The clamped candle range `max(h - l, 1e-12)`. -/
def rngOf (x : Candle) : ℚ := max (x.high - x.low) epsQ

/-- The function `_body_ratio` of `patterns.py`: `abs(c - o) / max(h - l, 1e-12)`. -/
def bodyFrac (x : Candle) : ℚ := |x.close - x.«open»| / rngOf x

/-- Upper-wick fraction `(h - max(o, c)) / max(h - l, 1e-12)`. -/
def upperWickFrac (x : Candle) : ℚ := (x.high - max x.«open» x.close) / rngOf x

/-- Lower-wick fraction `(min(o, c) - l) / max(h - l, 1e-12)`. -/
def lowerWickFrac (x : Candle) : ℚ := (min x.«open» x.close - x.low) / rngOf x

/-- Closing prices of a series (`df['close']`). -/
def closesOf (df : List Candle) : List ℚ := df.map Candle.close

/-- Volumes of a series (`df['volume']`). -/
def volsOf (df : List Candle) : List ℚ := df.map Candle.volume

/-! ### Indicator library (modelled from the spec)

The repository's `indicators.py` is imported by `patterns.py` but is missing
from the source snapshot; the definitions below follow §4.1 of the spec. -/

/-- One step of the recursive EMA with smoothing `α = 2/(n+1)`:
`a' = α·x + (1-α)·a`. -/
def emaStep (n : ℕ) (a x : ℚ) : ℚ := (2 * x + ((n : ℚ) - 1) * a) / ((n : ℚ) + 1)

/-- Modelled from the spec: `ema(series, length)` — EMA seeded by the simple
average of the first `length` values, undefined (`none`, pandas `NaN`) when
the series is shorter than `length`; value at the series' last index. -/
def emaLast (n : ℕ) (xs : List ℚ) : Option ℚ :=
  if xs.length < n then none
  else some ((xs.drop n).foldl (emaStep n) ((xs.take n).sum / (n : ℚ)))

/-- Modelled from the spec: the defined tail of the EMA series (values at
indices `n-1 .. length-1`), used to build the MACD signal line. -/
def emaSeq (n : ℕ) (xs : List ℚ) : List ℚ :=
  if xs.length < n then []
  else (xs.drop n).scanl (emaStep n) ((xs.take n).sum / (n : ℚ))

/-- One step of Wilder smoothing with period 14: `a' = (13·a + t)/14`. -/
def wilderStep (a t : ℚ) : ℚ := (a * 13 + t) / 14

/-- Wilder-smoothed average with period 14, seeded by the simple average of
the first 14 values; value at the last index. -/
def wilderAvg14 (l : List ℚ) : ℚ :=
  (l.drop 14).foldl wilderStep ((l.take 14).sum / 14)

/-- Successive differences of a series (`series.diff()` without the leading
`NaN`). -/
def diffsOf : List ℚ → List ℚ
  | [] => []
  | [_] => []
  | x :: y :: rest => (y - x) :: diffsOf (y :: rest)

/-- Modelled from the spec: Wilder's `rsi(series, 14)` at the last index —
Wilder-smoothed average gain over average loss; `100` when the average loss
is zero; `none` (pandas `NaN`) when fewer than 15 closes exist. -/
def rsiLast (xs : List ℚ) : Option ℚ :=
  if xs.length < 15 then none
  else
    let g := wilderAvg14 ((diffsOf xs).map (fun d => max d 0))
    let lo := wilderAvg14 ((diffsOf xs).map (fun d => max (-d) 0))
    some (if lo = 0 then 100 else 100 - 100 / (1 + g / lo))

/-- Modelled from the spec: `macd(series, 12, 26, 9)` histogram at the last
index — MACD line = ema(12) − ema(26), signal = ema(MACD line, 9), histogram
= line − signal; `none` when the warm-up (34 closes) is not met. -/
def macdHistLast (xs : List ℚ) : Option ℚ :=
  let line := ((emaSeq 12 xs).drop 14).zipWith (fun a b => a - b) (emaSeq 26 xs)
  match line.getLast?, (emaSeq 9 line).getLast? with
  | some l, some s => some (l - s)
  | _, _ => none

/-- True range of a candle given the previous close:
`max(h − l, |h − prev_close|, |l − prev_close|)` (spec §4.1). -/
def trAux (pc : ℚ) : List Candle → List ℚ
  | [] => []
  | x :: rest =>
      max (x.high - x.low) (max |x.high - pc| |x.low - pc|) :: trAux x.close rest

/-- True ranges of a series; the first candle has no previous close, its true
range is `high − low` (modelled from the spec). -/
def trueRanges : List Candle → List ℚ
  | [] => []
  | x :: rest => (x.high - x.low) :: trAux x.close rest

/-- Modelled from the spec: `atr(df, 14)` at the series' last index —
Wilder-smoothed average of the true ranges. -/
def atrLast (df : List Candle) : ℚ := wilderAvg14 (trueRanges df)

/-! ### NaN-aware comparisons

Python float comparisons with `NaN` are `False`; an undefined indicator
(`none`) therefore fails every filter that inspects it. -/

/-- Comparison `a > b` on possibly-undefined values; `false` whenever either is `none`. -/
def optGtB (a b : Option ℚ) : Bool :=
  match a, b with
  | some x, some y => decide (y < x)
  | _, _ => false

/-- Comparison `a < b` on possibly-undefined values; `false` whenever either is `none`. -/
def optLtB (a b : Option ℚ) : Bool :=
  match a, b with
  | some x, some y => decide (x < y)
  | _, _ => false

/-- Comparison `a > y` for a possibly-undefined `a`; `false` when `a` is `none`. -/
def optGtcB (a : Option ℚ) (y : ℚ) : Bool :=
  match a with
  | some x => decide (y < x)
  | none => false

/-- Comparison `a < y` for a possibly-undefined `a`; `false` when `a` is `none`. -/
def optLtcB (a : Option ℚ) (y : ℚ) : Bool :=
  match a with
  | some x => decide (x < y)
  | none => false

/-- Band check `lo ≤ a ≤ hi` for a possibly-undefined `a`; `false` when `a` is `none`. -/
def optBetweenB (lo hi : ℚ) (a : Option ℚ) : Bool :=
  match a with
  | some x => decide (lo ≤ x ∧ x ≤ hi)
  | none => false

/-! ### The detectors (`patterns.py`) -/

/-- Index of the first candle of the 3-candle evaluation window
(`_pick_last_segment`: `df.iloc[-3:]` when the forming candle is included,
`df.iloc[-4:-1]` otherwise; the `len(df) < 4` branch is unreachable behind
the `len(df) < 60` guard). -/
def windowBase (n : ℕ) (useLast : Bool) : ℕ := if useLast then n - 3 else n - 4

/-- The `i`-th candle (0, 1 or 2) of the evaluation window. -/
def wcand (df : List Candle) (useLast : Bool) (i : ℕ) : Candle :=
  df.getD (windowBase df.length useLast + i) ⟨0, 0, 0, 0, 0⟩

/-- Effective body-ratio floor: `min(min_body_ratio, 0.45)` under relax mode. -/
def mbrEff (cfg : Config) : ℚ :=
  if cfg.relax then min cfg.minBodyRatio (9 / 20) else cfg.minBodyRatio

/-- Effective wick ceiling: `max(max_*_wick, 0.5)` under relax mode (both
detectors relax the wick bound with the same constants). -/
def wickEff (cfg : Config) : ℚ :=
  if cfg.relax then max cfg.maxWick (1 / 2) else cfg.maxWick

/-- Effective RSI floor for the LONG detector: `min(rsi_min, 45)` relaxed. -/
def rloEffL (cfg : Config) : ℚ := if cfg.relax then min cfg.rsiMin 45 else cfg.rsiMin

/-- Effective RSI ceiling for the LONG detector: `max(rsi_max, 75)` relaxed. -/
def rhiEffL (cfg : Config) : ℚ := if cfg.relax then max cfg.rsiMax 75 else cfg.rsiMax

/-- Effective RSI floor for the SHORT detector: `min(rsi_min, 25)` relaxed. -/
def rloEffS (cfg : Config) : ℚ := if cfg.relax then min cfg.rsiMin 25 else cfg.rsiMin

/-- Effective RSI ceiling for the SHORT detector: `max(rsi_max, 55)` relaxed. -/
def rhiEffS (cfg : Config) : ℚ := if cfg.relax then max cfg.rsiMax 55 else cfg.rsiMax

/-- Per-candle soldier check of `detect_three_white_soldiers`: bullish body,
body-to-range ratio at least the floor, upper wick at most the ceiling. -/
abbrev soldierOk (mbr mw : ℚ) (x : Candle) : Prop :=
  x.«open» < x.close ∧ mbr ≤ bodyFrac x ∧ upperWickFrac x ≤ mw

/-- Per-candle crow check of `detect_three_black_crows`: bearish body,
body-to-range ratio at least the floor, lower wick at most the ceiling. -/
abbrev crowOk (mbr mw : ℚ) (x : Candle) : Prop :=
  x.close < x.«open» ∧ mbr ≤ bodyFrac x ∧ lowerWickFrac x ≤ mw

/-- Mean of the trailing 20 volumes (`df['volume'].iloc[-20:].mean()`; the
series always has at least 60 candles when this is evaluated). -/
def volMean20 (df : List Candle) : ℚ := ((volsOf df).drop (df.length - 20)).sum / 20

/-- Volume of the last candle (`v.iloc[-1]`). -/
def volLast (df : List Candle) : ℚ := ((volsOf df).getLast?).getD 0

/-- All filters of `detect_three_white_soldiers` after the length guard, in
source order: the three soldier candles, strictly increasing closes, and the
optional EMA / RSI / MACD / volume filters (each an early `return None` in
the Python code). -/
abbrev passLong (df : List Candle) (cfg : Config) : Prop :=
  soldierOk (mbrEff cfg) (wickEff cfg) (wcand df cfg.useLastCandle 0) ∧
  soldierOk (mbrEff cfg) (wickEff cfg) (wcand df cfg.useLastCandle 1) ∧
  soldierOk (mbrEff cfg) (wickEff cfg) (wcand df cfg.useLastCandle 2) ∧
  (wcand df cfg.useLastCandle 0).close < (wcand df cfg.useLastCandle 1).close ∧
  (wcand df cfg.useLastCandle 1).close < (wcand df cfg.useLastCandle 2).close ∧
  (cfg.useEma = true →
    optGtB (emaLast 50 (closesOf df)) (emaLast 200 (closesOf df)) = true) ∧
  (cfg.useRsi = true →
    optBetweenB (rloEffL cfg) (rhiEffL cfg) (rsiLast (closesOf df)) = true) ∧
  (cfg.useMacd = true → optGtcB (macdHistLast (closesOf df)) (-cfg.macdTol) = true) ∧
  (cfg.useVol = true →
    0 < volMean20 df ∧ cfg.volMinRatio * volMean20 df ≤ volLast df)

/-- All filters of `detect_three_black_crows` after the length guard, in
source order. -/
abbrev passShort (df : List Candle) (cfg : Config) : Prop :=
  crowOk (mbrEff cfg) (wickEff cfg) (wcand df cfg.useLastCandle 0) ∧
  crowOk (mbrEff cfg) (wickEff cfg) (wcand df cfg.useLastCandle 1) ∧
  crowOk (mbrEff cfg) (wickEff cfg) (wcand df cfg.useLastCandle 2) ∧
  (wcand df cfg.useLastCandle 1).close < (wcand df cfg.useLastCandle 0).close ∧
  (wcand df cfg.useLastCandle 2).close < (wcand df cfg.useLastCandle 1).close ∧
  (cfg.useEma = true →
    optLtB (emaLast 50 (closesOf df)) (emaLast 200 (closesOf df)) = true) ∧
  (cfg.useRsi = true →
    optBetweenB (rloEffS cfg) (rhiEffS cfg) (rsiLast (closesOf df)) = true) ∧
  (cfg.useMacd = true → optLtcB (macdHistLast (closesOf df)) cfg.macdTol = true) ∧
  (cfg.useVol = true →
    0 < volMean20 df ∧ cfg.volMinRatio * volMean20 df ≤ volLast df)

/-- The LONG signal dictionary built at the end of
`detect_three_white_soldiers` (`0.5` and `3.6` are the ATR multipliers of the
source; `entry_after_close = close3`). -/
def mkLong (df : List Candle) (cfg : Config) : Signal :=
  let b := wcand df cfg.useLastCandle 1
  let c := wcand df cfg.useLastCandle 2
  let a14 := atrLast df
  { side := Side.LONG
    entryClose := c.close
    entryRetest := (b.«open» + b.close) / 2
    sl := min b.low (c.close - a14 * (1 / 2))
    tp := c.close + a14 * (18 / 5)
    atr := a14
    ema50 := emaLast 50 (closesOf df)
    ema200 := emaLast 200 (closesOf df)
    rsi := rsiLast (closesOf df)
    macdHist := macdHistLast (closesOf df) }

/-- The SHORT signal dictionary built at the end of
`detect_three_black_crows`. -/
def mkShort (df : List Candle) (cfg : Config) : Signal :=
  let b := wcand df cfg.useLastCandle 1
  let c := wcand df cfg.useLastCandle 2
  let a14 := atrLast df
  { side := Side.SHORT
    entryClose := c.close
    entryRetest := (b.«open» + b.close) / 2
    sl := max b.high (c.close + a14 * (1 / 2))
    tp := c.close - a14 * (18 / 5)
    atr := a14
    ema50 := emaLast 50 (closesOf df)
    ema200 := emaLast 200 (closesOf df)
    rsi := rsiLast (closesOf df)
    macdHist := macdHistLast (closesOf df) }

/-- The function `detect_three_white_soldiers` of `patterns.py`. -/
def detect_three_white_soldiers (df : List Candle) (cfg : Config) : Option Signal :=
  if df.length < 60 then none
  else if passLong df cfg then some (mkLong df cfg) else none

/-- The function `detect_three_black_crows` of `patterns.py`. -/
def detect_three_black_crows (df : List Candle) (cfg : Config) : Option Signal :=
  if df.length < 60 then none
  else if passShort df cfg then some (mkShort df cfg) else none

end CandleBot

namespace CandleBot

/-! ### Trade guard (`trader.py`) -/

/-- One entry of the position list returned by `api.get_positions` (only the
`size` field is read by `can_open_for_symbol`). -/
structure Position where
  size : ℚ
  deriving DecidableEq, Repr

/-- One entry of the open-order list returned by `api.get_open_orders`
(`orderId` plus the two timestamp fields read by `cancel_stale_orders`;
absent dictionary keys are `none`). -/
structure Order where
  orderId : ℕ
  createdTime : Option ℤ
  updatedTime : Option ℤ
  deriving DecidableEq, Repr

/-- Count of positions with `abs(size) > 0`. -/
def nonzeroCount (positions : List Position) : ℕ :=
  (positions.filter (fun p => decide (0 < |p.size|))).length

/-- The function `can_open_for_symbol` of `trader.py`: deny when the non-zero-position
count reaches the cap, then deny when the open-order count reaches the cap,
otherwise admit.  The two exchange reads are modelled as the two input
lists. -/
def can_open_for_symbol (positions : List Position) (orders : List Order)
    (maxOpenPerSymbol : ℕ) : Bool :=
  if maxOpenPerSymbol ≤ nonzeroCount positions then false
  else if maxOpenPerSymbol ≤ orders.length then false
  else true

/-- The timestamp `cancel_stale_orders` reads for an order:
`o.get("createdTime", o.get("updatedTime", now_ms))`. -/
def staleTs (nowMs : ℤ) (o : Order) : ℤ :=
  match o.createdTime with
  | some t => t
  | none =>
    match o.updatedTime with
    | some u => u
    | none => nowMs

/-- The function `cancel_stale_orders` of `trader.py`, modelled as the list of open orders
for which `api.cancel_order` is invoked: those with
`now_ms - ts ≥ ttl_minutes * 60 * 1000`. -/
def cancel_stale_orders (nowMs : ℤ) (ttlMinutes : ℤ) (orders : List Order) :
    List Order :=
  orders.filter (fun o => decide (ttlMinutes * 60 * 1000 ≤ nowMs - staleTs nowMs o))

/-! ### Universe selection (`data_fetch.py`, TURNOVER branch) -/

/-- One row of the ticker response, after the `pd.to_numeric(..., errors =
"coerce")` conversion: an unparsable `turnover24h` is `none` (pandas `NaN`). -/
structure Ticker where
  symbol : String
  turnover24h : Option ℚ
  deriving DecidableEq, Repr

/-- Descending order on coerced turnovers with `none` (NaN) sorted last, the
order produced by `sort_values("turnover24h", ascending=False)`. -/
def turnGeB (a b : Option ℚ) : Bool :=
  match a, b with
  | some x, some y => decide (y ≤ x)
  | some _, none => true
  | none, some _ => false
  | none, none => true

/-- The row relation the sorted ticker frame satisfies. -/
abbrev tickGe (a b : Ticker) : Prop := turnGeB a.turnover24h b.turnover24h = true

/-- Strictly-descending row relation (used to state the spec's "strictly
sorted" reading). -/
abbrev tickGt (a b : Ticker) : Prop :=
  (match a.turnover24h, b.turnover24h with
   | some x, some y => decide (y < x)
   | _, _ => false) = true

instance : IsTotal Ticker tickGe := by
  constructor
  intro a b
  unfold tickGe turnGeB
  rcases a.turnover24h with _ | x <;> rcases b.turnover24h with _ | y <;> simp
  exact le_total y x

instance : IsTrans Ticker tickGe := by
  constructor
  intro a b c hab hbc
  unfold tickGe turnGeB at *
  rcases ha : a.turnover24h with _ | x <;> rcases hb : b.turnover24h with _ | y <;>
    rcases hc : c.turnover24h with _ | z <;> simp_all
  exact le_trans hbc hab

/-- The TURNOVER-mode pipeline of `get_universe` (`data_fetch.py`) before the
final `df["symbol"].tolist()`: empty response short-circuit, quote-suffix
filter, descending sort on turnover, `head(top_n)`. -/
def universe_rows_turnover (tickers : List Ticker) (quote : String) (topN : ℕ) :
    List Ticker :=
  if tickers.isEmpty then []
  else
    (((tickers.filter (fun t => t.symbol.endsWith quote)).insertionSort tickGe).take topN)

/-- The function `get_universe` of `data_fetch.py` in TURNOVER mode: the symbols of the
selected rows. -/
def get_universe_turnover (tickers : List Ticker) (quote : String) (topN : ℕ) :
    List String :=
  (universe_rows_turnover tickers quote topN).map Ticker.symbol

/-! ### Multi-timeframe scan (`main.py`, `run_once`) -/

/-- The per-symbol timeframe loop of `run_once`:
`for tf in tf_list: sig = process_symbol(...); if sig: break`.
Returns the loop's final `sig` together with the list of timeframes for which
`process_symbol` was actually invoked. -/
def scanTimeframes {σ τ : Type} (f : τ → Option σ) : List τ → Option σ × List τ
  | [] => (none, [])
  | t :: ts =>
    match f t with
    | some s => (some s, [t])
    | none =>
      let r := scanTimeframes f ts
      (r.1, t :: r.2)

end CandleBot

namespace CandleBot

/-! ### Concrete series and configurations used by witnesses -/

/-- A flat candle (price pinned at 100) used as warm-up history. -/
def candFlat : Candle := ⟨100, 100, 100, 100, 100⟩

/-- Three consecutive bullish "soldier" candles (body 8 of range 10, upper
wick 1 of range 10). -/
def dfSoldiers : List Candle :=
  List.replicate 57 candFlat ++
    [⟨100, 109, 99, 108, 100⟩, ⟨108, 117, 107, 116, 100⟩, ⟨116, 125, 115, 124, 100⟩]

/-- Three consecutive bearish "crow" candles. -/
def dfCrows : List Candle :=
  List.replicate 57 candFlat ++
    [⟨100, 101, 91, 92, 100⟩, ⟨92, 93, 83, 84, 100⟩, ⟨84, 85, 75, 76, 100⟩]

/-- Series `dfSoldiers` followed by one extra (still-forming) candle with a wider
range, used to show which index the indicators are computed at. -/
def dfSoldiersPlus : List Candle := dfSoldiers ++ [⟨124, 138, 110, 124, 100⟩]

/-- A degenerate-but-accepted series: every candle has `high = low =` the
previous close, so every true range is zero and `ATR = 0`; the last three
candles still satisfy all three-white-soldiers checks thanks to the `1e-12`
range clamp. -/
def dfDegen : List Candle :=
  List.replicate 57 ⟨100, 100, 100, 100, 1⟩ ++
    [⟨100, 100, 100, 101, 1⟩, ⟨101, 101, 101, 102, 1⟩, ⟨102, 102, 102, 103, 1⟩]

/-- Series `dfSoldiers` with all volumes zero (trailing mean volume is 0). -/
def dfZeroVol : List Candle :=
  List.replicate 57 ⟨100, 100, 100, 100, 0⟩ ++
    [⟨100, 109, 99, 108, 0⟩, ⟨108, 117, 107, 116, 0⟩, ⟨116, 125, 115, 124, 0⟩]

/-- Defaults of the detector signature with every optional filter disabled
and relax mode off. -/
def cfgOff : Config :=
  { useEma := false, useRsi := false, useMacd := false, useVol := false
    minBodyRatio := 3 / 5, maxWick := 7 / 20, rsiMin := 50, rsiMax := 72
    macdTol := 8 / 10000, volMinRatio := 3 / 5, relax := false, useLastCandle := true }

/-- Configuration `cfgOff` with only the volume filter enabled. -/
def cfgVolOnly : Config := { cfgOff with useVol := true }

/-- Configuration `cfgOff` excluding the still-forming candle from the window. -/
def cfgNoLast : Config := { cfgOff with useLastCandle := false }

/-- OHLC consistency of one candle: the low is below both body ends and the
high above them (every candle produced by a real exchange satisfies this;
the detector itself never checks it). -/
abbrev ValidCandle (x : Candle) : Prop :=
  x.low ≤ x.«open» ∧ x.low ≤ x.close ∧ x.«open» ≤ x.high ∧ x.close ≤ x.high

/-- OHLC consistency of a whole series. -/
abbrev ValidSeries (df : List Candle) : Prop := ∀ x ∈ df, ValidCandle x

/-- Configuration `cfgOff` with only the MACD filter enabled. -/
def cfgMacdOnly : Config := { cfgOff with useMacd := true }

/-- The order of the spec's example that is 61 minutes old at sweep time. -/
def ord61 : Order := ⟨1, some 0, none⟩

/-- The order of the spec's example that is 59 minutes old at sweep time. -/
def ord59 : Order := ⟨2, some 120000, none⟩

/-- Timeframe probe used by the C7 witness: only timeframe 60 detects. -/
def probeTf (t : ℕ) : Option ℕ := if t = 60 then some 7 else none

end CandleBot

namespace CandleBot

/-! ### Helper lemmas shared by the claim theorems -/

/-- Unfolding characterisation of `detect_three_white_soldiers`. -/
theorem detect_three_white_soldiers_eq_some_iff {df : List Candle} {cfg : Config} {s : Signal} :
    detect_three_white_soldiers df cfg = some s ↔
      60 ≤ df.length ∧ passLong df cfg ∧ s = mkLong df cfg := by
  unfold detect_three_white_soldiers
  by_cases h1 : df.length < 60
  · rw [if_pos h1]
    constructor
    · intro h
      exact absurd h (by simp)
    · rintro ⟨h60, -, -⟩
      omega
  · by_cases h2 : passLong df cfg <;>
      simp [h1, h2, Nat.not_lt.mp h1, eq_comm]

/-- Unfolding characterisation of `detect_three_black_crows`. -/
theorem detect_three_black_crows_eq_some_iff {df : List Candle} {cfg : Config} {s : Signal} :
    detect_three_black_crows df cfg = some s ↔
      60 ≤ df.length ∧ passShort df cfg ∧ s = mkShort df cfg := by
  unfold detect_three_black_crows
  by_cases h1 : df.length < 60
  · rw [if_pos h1]
    constructor
    · intro h
      exact absurd h (by simp)
    · rintro ⟨h60, -, -⟩
      omega
  · by_cases h2 : passShort df cfg <;>
      simp [h1, h2, Nat.not_lt.mp h1, eq_comm]

/-- A Wilder smoothing step keeps the accumulator nonnegative. -/
theorem wilderStep_nonneg {a t : ℚ} (ha : 0 ≤ a) (ht : 0 ≤ t) :
    0 ≤ wilderStep a t := by
  unfold wilderStep
  positivity

/-- A Wilder smoothing step keeps the accumulator positive. -/
theorem wilderStep_pos {a t : ℚ} (ha : 0 < a) (ht : 0 ≤ t) :
    0 < wilderStep a t := by
  unfold wilderStep
  have : 0 < a * 13 + t := by linarith
  positivity

/-- A Wilder smoothing step applied to a positive value is positive. -/
theorem wilderStep_pos_right {a t : ℚ} (ha : 0 ≤ a) (ht : 0 < t) :
    0 < wilderStep a t := by
  unfold wilderStep
  have : 0 < a * 13 + t := by linarith
  positivity

/-- Folding Wilder steps over nonnegative values preserves nonnegativity. -/
theorem foldl_wilderStep_nonneg {l : List ℚ} {a : ℚ} (ha : 0 ≤ a)
    (hl : ∀ t ∈ l, 0 ≤ t) : 0 ≤ l.foldl wilderStep a := by
  induction l generalizing a with
  | nil => exact ha
  | cons x xs ih =>
    exact ih (wilderStep_nonneg ha (hl x (by simp)))
      (fun t ht => hl t (by simp [ht]))

/-- Folding Wilder steps over nonnegative values preserves positivity. -/
theorem foldl_wilderStep_pos {l : List ℚ} {a : ℚ} (ha : 0 < a)
    (hl : ∀ t ∈ l, 0 ≤ t) : 0 < l.foldl wilderStep a := by
  induction l generalizing a with
  | nil => exact ha
  | cons x xs ih =>
    exact ih (wilderStep_pos ha (hl x (by simp)))
      (fun t ht => hl t (by simp [ht]))

/-- If some folded value is positive (and everything is nonnegative), the
Wilder fold is positive. -/
theorem foldl_wilderStep_pos_of_mem {l : List ℚ} {a t₀ : ℚ} (ha : 0 ≤ a)
    (hl : ∀ t ∈ l, 0 ≤ t) (hmem : t₀ ∈ l) (hpos : 0 < t₀) :
    0 < l.foldl wilderStep a := by
  induction l generalizing a with
  | nil => cases hmem
  | cons x xs ih =>
    simp only [List.foldl_cons]
    rcases List.mem_cons.mp hmem with rfl | hmem'
    · exact foldl_wilderStep_pos (wilderStep_pos_right ha hpos)
        (fun t ht => hl t (List.mem_cons_of_mem _ ht))
    · exact ih (wilderStep_nonneg ha (hl x (List.mem_cons_self _ _)))
        (fun t ht => hl t (List.mem_cons_of_mem _ ht)) hmem'

/-- The true ranges computed with a previous close are elementwise at least
`high − low`. -/
theorem trAux_getElem_ge (pc : ℚ) (l : List Candle) (i : ℕ) (h : i < l.length)
    (h' : i < (trAux pc l).length) :
    (l[i]).high - (l[i]).low ≤ (trAux pc l)[i] := by
  induction l generalizing pc i with
  | nil => cases h
  | cons x xs ih =>
    cases i with
    | zero => simp [trAux]
    | succ j =>
      simp only [trAux, List.getElem_cons_succ]
      exact ih x.close j (by simpa using h) (by simpa [trAux] using h')

/-- Every true range computed with a previous close is nonnegative. -/
theorem trAux_nonneg (pc : ℚ) (l : List Candle) : ∀ t ∈ trAux pc l, 0 ≤ t := by
  induction l generalizing pc with
  | nil => simp [trAux]
  | cons x xs ih =>
    intro t ht
    rcases List.mem_cons.mp ht with rfl | h'
    · exact le_trans (abs_nonneg _) (le_max_of_le_right (le_max_left _ _))
    · exact ih x.close t h'

/-- Function `trAux` preserves the length of its input. -/
theorem trAux_length (pc : ℚ) (l : List Candle) :
    (trAux pc l).length = l.length := by
  induction l generalizing pc with
  | nil => rfl
  | cons x xs ih => simp [trAux, ih]

/-- Function `trueRanges` preserves the length of its input. -/
theorem trueRanges_length (df : List Candle) :
    (trueRanges df).length = df.length := by
  cases df with
  | nil => rfl
  | cons x xs => simp [trueRanges, trAux_length]

end CandleBot

namespace CandleBot


/-- Under OHLC consistency every true range is nonnegative. -/
theorem trueRanges_nonneg {df : List Candle} (hv : ValidSeries df) :
    ∀ t ∈ trueRanges df, 0 ≤ t := by
  cases df with
  | nil => simp [trueRanges]
  | cons x xs =>
    intro t ht
    rcases List.mem_cons.mp ht with rfl | h'
    · have hx := hv x (List.mem_cons_self _ _)
      have h1 : x.low ≤ x.high := le_trans hx.1 hx.2.2.1
      linarith
    · exact trAux_nonneg x.close xs t h'

/-- Every true range dominates the plain candle range `high − low`. -/
theorem trueRanges_getElem_ge (df : List Candle) (i : ℕ) (h : i < df.length)
    (h' : i < (trueRanges df).length) :
    (df[i]).high - (df[i]).low ≤ (trueRanges df)[i] := by
  cases df with
  | nil => cases h
  | cons x xs =>
    cases i with
    | zero => simp [trueRanges]
    | succ j =>
      simp only [trueRanges, List.getElem_cons_succ]
      exact trAux_getElem_ge x.close xs j (by simpa using h)
        (by simpa [trAux_length] using (by simpa [trueRanges, trAux_length] using h'))

/-- On an OHLC-consistent series, the ATR at the last index is positive as
soon as some candle at index ≥ 14 has a positive plain range. -/
theorem atrLast_pos {df : List Candle} (hv : ValidSeries df) (i : ℕ)
    (h14 : 14 ≤ i) (hi : i < df.length)
    (hpos : 0 < (df[i]).high - (df[i]).low) :
    0 < atrLast df := by
  unfold atrLast wilderAvg14
  have hlen : (trueRanges df).length = df.length := trueRanges_length df
  have hi' : i < (trueRanges df).length := by omega
  have htr : 0 < (trueRanges df)[i] :=
    lt_of_lt_of_le hpos (trueRanges_getElem_ge df i hi hi')
  have hnn := trueRanges_nonneg hv
  have hseed : 0 ≤ ((trueRanges df).take 14).sum / 14 := by
    apply div_nonneg _ (by norm_num)
    exact List.sum_nonneg (fun t ht => hnn t (List.mem_of_mem_take ht))
  have hji : i - 14 < ((trueRanges df).drop 14).length := by
    simp only [List.length_drop]
    omega
  have hmem : (trueRanges df)[i] ∈ (trueRanges df).drop 14 := by
    have he : ((trueRanges df).drop 14)[i - 14] = (trueRanges df)[i] := by
      rw [List.getElem_drop]
      congr 1
      omega
    rw [← he]
    exact List.getElem_mem hji
  exact foldl_wilderStep_pos_of_mem hseed
    (fun t ht => hnn t (List.mem_of_mem_drop ht)) hmem htr

/-- The index of the third window candle is in bounds and beyond the ATR
warm-up whenever the series has at least 60 candles. -/
theorem windowBase_add_two_lt {n : ℕ} (ul : Bool) (h : 60 ≤ n) :
    windowBase n ul + 2 < n ∧ 14 ≤ windowBase n ul + 2 := by
  unfold windowBase
  cases ul <;> simp <;> omega

/-- With at least 60 candles the window candles are `getElem`s of the
series. -/
theorem wcand_eq_getElem {df : List Candle} (ul : Bool) (i : ℕ)
    (h : windowBase df.length ul + i < df.length) :
    wcand df ul i = df[windowBase df.length ul + i] := by
  unfold wcand
  rw [List.getD_eq_getElem?_getD, List.getElem?_eq_getElem h]
  rfl

end CandleBot

namespace CandleBot

/-! ### C1 — ordering of the derived levels -/

/-- C1 (amended): on an OHLC-consistent series, every accepted LONG signal
satisfies `stop_loss < entry_close < take_profit` with `entry_close` the
close of the third window candle, and every accepted SHORT signal satisfies
`take_profit < entry_close < stop_loss` with the same `entry_close`
equality.  (The OHLC-consistency hypothesis is what the counterexample
forces: on a degenerate series the ATR can be zero and
`take_profit = entry_close`.) -/
theorem c1_signal_levels (df : List Candle) (cfg : Config) (s : Signal)
    (hv : ValidSeries df) :
    (detect_three_white_soldiers df cfg = some s →
      s.sl < s.entryClose ∧ s.entryClose < s.tp ∧
      s.entryClose = (wcand df cfg.useLastCandle 2).close ∧ s.side = Side.LONG) ∧
    (detect_three_black_crows df cfg = some s →
      s.tp < s.entryClose ∧ s.entryClose < s.sl ∧
      s.entryClose = (wcand df cfg.useLastCandle 2).close ∧ s.side = Side.SHORT) := by
  constructor
  · intro h
    obtain ⟨hlen, hpass, rfl⟩ := detect_three_white_soldiers_eq_some_iff.mp h
    obtain ⟨hw, h14⟩ := windowBase_add_two_lt cfg.useLastCandle hlen
    have hc2 : wcand df cfg.useLastCandle 2 =
        df[windowBase df.length cfg.useLastCandle + 2] :=
      wcand_eq_getElem _ _ hw
    have hvc : ValidCandle (wcand df cfg.useLastCandle 2) := by
      rw [hc2]
      exact hv _ (List.getElem_mem hw)
    have hbody : (wcand df cfg.useLastCandle 2).«open» <
        (wcand df cfg.useLastCandle 2).close := hpass.2.2.1.1
    have hatr : 0 < atrLast df := by
      refine atrLast_pos hv _ h14 hw ?_
      rw [← hc2]
      rcases hvc with ⟨hv1, hv2, hv3, hv4⟩
      linarith
    refine ⟨?_, ?_, rfl, rfl⟩
    · show min (wcand df cfg.useLastCandle 1).low
        ((wcand df cfg.useLastCandle 2).close - atrLast df * (1 / 2)) <
          (wcand df cfg.useLastCandle 2).close
      have := min_le_right (wcand df cfg.useLastCandle 1).low
        ((wcand df cfg.useLastCandle 2).close - atrLast df * (1 / 2))
      linarith
    · show (wcand df cfg.useLastCandle 2).close <
        (wcand df cfg.useLastCandle 2).close + atrLast df * (18 / 5)
      linarith
  · intro h
    obtain ⟨hlen, hpass, rfl⟩ := detect_three_black_crows_eq_some_iff.mp h
    obtain ⟨hw, h14⟩ := windowBase_add_two_lt cfg.useLastCandle hlen
    have hc2 : wcand df cfg.useLastCandle 2 =
        df[windowBase df.length cfg.useLastCandle + 2] :=
      wcand_eq_getElem _ _ hw
    have hvc : ValidCandle (wcand df cfg.useLastCandle 2) := by
      rw [hc2]
      exact hv _ (List.getElem_mem hw)
    have hbody : (wcand df cfg.useLastCandle 2).close <
        (wcand df cfg.useLastCandle 2).«open» := hpass.2.2.1.1
    have hatr : 0 < atrLast df := by
      refine atrLast_pos hv _ h14 hw ?_
      rw [← hc2]
      rcases hvc with ⟨hv1, hv2, hv3, hv4⟩
      linarith
    refine ⟨?_, ?_, rfl, rfl⟩
    · show (wcand df cfg.useLastCandle 2).close - atrLast df * (18 / 5) <
        (wcand df cfg.useLastCandle 2).close
      linarith
    · show (wcand df cfg.useLastCandle 2).close <
        max (wcand df cfg.useLastCandle 1).high
          ((wcand df cfg.useLastCandle 2).close + atrLast df * (1 / 2))
      have := le_max_right (wcand df cfg.useLastCandle 1).high
        ((wcand df cfg.useLastCandle 2).close + atrLast df * (1 / 2))
      linarith

/-- C1 counterexample: on `dfDegen` (60 candles, every true range zero, all
three-soldier checks passing thanks to the `1e-12` clamp) the detector
returns a signal whose `take_profit` equals `entry_close`, so
`entry_close < take_profit` fails as the claim quantifies over every input
series. -/
theorem c1_counterexample :
    (detect_three_white_soldiers dfDegen cfgOff).isSome = true ∧
    ((detect_three_white_soldiers dfDegen cfgOff).map
      (fun s => decide (s.entryClose < s.tp))).getD true = false := by
  constructor <;> decide!

/-- C1 witness: the amended theorem applied to the concrete series
`dfSoldiers`. -/
theorem c1_witness :
    ((detect_three_white_soldiers dfSoldiers cfgOff).map
      (fun s => decide (s.sl < s.entryClose ∧ s.entryClose < s.tp))).getD false
      = true := by
  cases h : detect_three_white_soldiers dfSoldiers cfgOff with
  | none => exact absurd h (by decide!)
  | some s =>
    have hres := (c1_signal_levels dfSoldiers cfgOff s (by decide!)).1 h
    simp only [Option.map_some', Option.getD_some]
    exact decide_eq_true ⟨hres.1, hres.2.1⟩

end CandleBot

namespace CandleBot

/-! ### C3 — relax mode only loosens thresholds -/

/-- Relaxation can only lower the body-ratio floor. -/
theorem mbrEff_relax_le (cfg : Config) (h : cfg.relax = false) :
    mbrEff { cfg with relax := true } ≤ mbrEff cfg := by
  simp only [mbrEff, h]
  simp [min_le_left]

/-- Relaxation can only raise the wick ceiling. -/
theorem wickEff_relax_ge (cfg : Config) (h : cfg.relax = false) :
    wickEff cfg ≤ wickEff { cfg with relax := true } := by
  simp only [wickEff, h]
  simp [le_max_left]

/-- Relaxation can only lower the LONG RSI floor. -/
theorem rloEffL_relax_le (cfg : Config) (h : cfg.relax = false) :
    rloEffL { cfg with relax := true } ≤ rloEffL cfg := by
  simp only [rloEffL, h]
  simp [min_le_left]

/-- Relaxation can only raise the LONG RSI ceiling. -/
theorem rhiEffL_relax_ge (cfg : Config) (h : cfg.relax = false) :
    rhiEffL cfg ≤ rhiEffL { cfg with relax := true } := by
  simp only [rhiEffL, h]
  simp [le_max_left]

/-- Relaxation can only lower the SHORT RSI floor. -/
theorem rloEffS_relax_le (cfg : Config) (h : cfg.relax = false) :
    rloEffS { cfg with relax := true } ≤ rloEffS cfg := by
  simp only [rloEffS, h]
  simp [min_le_left]

/-- Relaxation can only raise the SHORT RSI ceiling. -/
theorem rhiEffS_relax_ge (cfg : Config) (h : cfg.relax = false) :
    rhiEffS cfg ≤ rhiEffS { cfg with relax := true } := by
  simp only [rhiEffS, h]
  simp [le_max_left]

/-- The per-candle soldier check is monotone in its thresholds. -/
theorem soldierOk_mono {mbr mbr' mw mw' : ℚ} {x : Candle}
    (h1 : mbr' ≤ mbr) (h2 : mw ≤ mw') (h : soldierOk mbr mw x) :
    soldierOk mbr' mw' x :=
  ⟨h.1, le_trans h1 h.2.1, le_trans h.2.2 h2⟩

/-- The per-candle crow check is monotone in its thresholds. -/
theorem crowOk_mono {mbr mbr' mw mw' : ℚ} {x : Candle}
    (h1 : mbr' ≤ mbr) (h2 : mw ≤ mw') (h : crowOk mbr mw x) :
    crowOk mbr' mw' x :=
  ⟨h.1, le_trans h1 h.2.1, le_trans h.2.2 h2⟩

/-- The RSI band check is monotone in widening bands. -/
theorem optBetweenB_mono {lo lo' hi hi' : ℚ} {a : Option ℚ}
    (h1 : lo' ≤ lo) (h2 : hi ≤ hi') (h : optBetweenB lo hi a = true) :
    optBetweenB lo' hi' a = true := by
  cases a with
  | none => simp [optBetweenB] at h
  | some x =>
    simp only [optBetweenB, decide_eq_true_eq] at h ⊢
    exact ⟨le_trans h1 h.1, le_trans h.2 h2⟩

/-- Passing all LONG filters with relax off implies passing them with relax
on. -/
theorem passLong_relax {df : List Candle} {cfg : Config} (hr : cfg.relax = false)
    (h : passLong df cfg) : passLong df { cfg with relax := true } := by
  obtain ⟨h1, h2, h3, h4, h5, h6, h7, h8, h9⟩ := h
  exact ⟨soldierOk_mono (mbrEff_relax_le cfg hr) (wickEff_relax_ge cfg hr) h1,
    soldierOk_mono (mbrEff_relax_le cfg hr) (wickEff_relax_ge cfg hr) h2,
    soldierOk_mono (mbrEff_relax_le cfg hr) (wickEff_relax_ge cfg hr) h3,
    h4, h5, h6,
    fun hu => optBetweenB_mono (rloEffL_relax_le cfg hr) (rhiEffL_relax_ge cfg hr) (h7 hu),
    h8, h9⟩

/-- Passing all SHORT filters with relax off implies passing them with relax
on. -/
theorem passShort_relax {df : List Candle} {cfg : Config} (hr : cfg.relax = false)
    (h : passShort df cfg) : passShort df { cfg with relax := true } := by
  obtain ⟨h1, h2, h3, h4, h5, h6, h7, h8, h9⟩ := h
  exact ⟨crowOk_mono (mbrEff_relax_le cfg hr) (wickEff_relax_ge cfg hr) h1,
    crowOk_mono (mbrEff_relax_le cfg hr) (wickEff_relax_ge cfg hr) h2,
    crowOk_mono (mbrEff_relax_le cfg hr) (wickEff_relax_ge cfg hr) h3,
    h4, h5, h6,
    fun hu => optBetweenB_mono (rloEffS_relax_le cfg hr) (rhiEffS_relax_ge cfg hr) (h7 hu),
    h8, h9⟩

/-- C3: enabling relax mode (all other parameters equal) never turns a
passing input into a failing one, for either detector: relaxation only
lowers the body-ratio floor, raises the wick ceiling and widens the RSI
band. -/
theorem c3_relax_monotone (df : List Candle) (cfg : Config)
    (hr : cfg.relax = false) :
    ((detect_three_white_soldiers df cfg).isSome = true →
      (detect_three_white_soldiers df { cfg with relax := true }).isSome = true) ∧
    ((detect_three_black_crows df cfg).isSome = true →
      (detect_three_black_crows df { cfg with relax := true }).isSome = true) := by
  constructor
  · intro h
    rw [Option.isSome_iff_exists] at h
    obtain ⟨s, hs⟩ := h
    obtain ⟨hlen, hpass, -⟩ := detect_three_white_soldiers_eq_some_iff.mp hs
    have hd : detect_three_white_soldiers df { cfg with relax := true } =
        some (mkLong df { cfg with relax := true }) :=
      detect_three_white_soldiers_eq_some_iff.mpr ⟨hlen, passLong_relax hr hpass, rfl⟩
    simp [hd]
  · intro h
    rw [Option.isSome_iff_exists] at h
    obtain ⟨s, hs⟩ := h
    obtain ⟨hlen, hpass, -⟩ := detect_three_black_crows_eq_some_iff.mp hs
    have hd : detect_three_black_crows df { cfg with relax := true } =
        some (mkShort df { cfg with relax := true }) :=
      detect_three_black_crows_eq_some_iff.mpr ⟨hlen, passShort_relax hr hpass, rfl⟩
    simp [hd]

/-- C3 witness: both directions applied to concrete passing series. -/
theorem c3_witness :
    (detect_three_white_soldiers dfSoldiers { cfgOff with relax := true }).isSome = true ∧
    (detect_three_black_crows dfCrows { cfgOff with relax := true }).isSome = true :=
  ⟨(c3_relax_monotone dfSoldiers cfgOff rfl).1 (by decide!),
   (c3_relax_monotone dfCrows cfgOff rfl).2 (by decide!)⟩

/-! ### C10 — the two detectors are mutually exclusive -/

/-- C10: the detectors can never both fire on the same series (with the same
forming-candle setting): the first window candle cannot be simultaneously
bullish and bearish, so a LONG detection forces the SHORT detector to
return `none` — the scan's LONG-before-SHORT order masks nothing. -/
theorem c10_detectors_exclusive (df : List Candle) (cfg₁ cfg₂ : Config)
    (hul : cfg₁.useLastCandle = cfg₂.useLastCandle)
    (h : (detect_three_white_soldiers df cfg₁).isSome = true) :
    detect_three_black_crows df cfg₂ = none := by
  rw [Option.isSome_iff_exists] at h
  obtain ⟨s, hs⟩ := h
  obtain ⟨hlen, hpass, -⟩ := detect_three_white_soldiers_eq_some_iff.mp hs
  unfold detect_three_black_crows
  rw [if_neg (by omega), if_neg]
  intro hp
  have h1 : (wcand df cfg₁.useLastCandle 0).«open» <
      (wcand df cfg₁.useLastCandle 0).close := hpass.1.1
  have h2 : (wcand df cfg₂.useLastCandle 0).close <
      (wcand df cfg₂.useLastCandle 0).«open» := hp.1.1
  rw [← hul] at h2
  linarith

/-- C10 witness: a concrete LONG detection and the forced SHORT `none`. -/
theorem c10_witness : detect_three_black_crows dfSoldiers cfgOff = none :=
  c10_detectors_exclusive dfSoldiers cfgOff cfgOff rfl (by decide!)

end CandleBot

namespace CandleBot

/-! ### C4 — the volume filter -/


/-- C4 (amended): with the volume filter enabled, detection succeeds exactly
when detection-without-the-filter succeeds AND the trailing-20 mean volume
is strictly positive AND the last volume is at least `vol_min_ratio` times
that mean.  In particular a non-positive mean volume DOES cause the
detector to return `none` (the code rejects on `v.mean() <= 0` rather than
skipping the filter as the spec claims). -/
theorem c4_volume_guard (df : List Candle) (cfg : Config) (s : Signal)
    (hv : cfg.useVol = true) :
    (detect_three_white_soldiers df cfg = some s ↔
      (detect_three_white_soldiers df { cfg with useVol := false } = some s ∧
        0 < volMean20 df ∧ cfg.volMinRatio * volMean20 df ≤ volLast df)) ∧
    (detect_three_black_crows df cfg = some s ↔
      (detect_three_black_crows df { cfg with useVol := false } = some s ∧
        0 < volMean20 df ∧ cfg.volMinRatio * volMean20 df ≤ volLast df)) := by
  constructor
  · constructor
    · intro h
      obtain ⟨hlen, hpass, hs⟩ := detect_three_white_soldiers_eq_some_iff.mp h
      obtain ⟨h1, h2, h3, h4, h5, h6, h7, h8, h9⟩ := hpass
      exact ⟨detect_three_white_soldiers_eq_some_iff.mpr
        ⟨hlen, ⟨h1, h2, h3, h4, h5, h6, h7, h8, fun hb => Bool.noConfusion hb⟩, hs⟩,
        h9 hv⟩
    · rintro ⟨h, hm⟩
      obtain ⟨hlen, hpass, hs⟩ := detect_three_white_soldiers_eq_some_iff.mp h
      obtain ⟨h1, h2, h3, h4, h5, h6, h7, h8, -⟩ := hpass
      exact detect_three_white_soldiers_eq_some_iff.mpr
        ⟨hlen, ⟨h1, h2, h3, h4, h5, h6, h7, h8, fun _ => hm⟩, hs⟩
  · constructor
    · intro h
      obtain ⟨hlen, hpass, hs⟩ := detect_three_black_crows_eq_some_iff.mp h
      obtain ⟨h1, h2, h3, h4, h5, h6, h7, h8, h9⟩ := hpass
      exact ⟨detect_three_black_crows_eq_some_iff.mpr
        ⟨hlen, ⟨h1, h2, h3, h4, h5, h6, h7, h8, fun hb => Bool.noConfusion hb⟩, hs⟩,
        h9 hv⟩
    · rintro ⟨h, hm⟩
      obtain ⟨hlen, hpass, hs⟩ := detect_three_black_crows_eq_some_iff.mp h
      obtain ⟨h1, h2, h3, h4, h5, h6, h7, h8, -⟩ := hpass
      exact detect_three_black_crows_eq_some_iff.mpr
        ⟨hlen, ⟨h1, h2, h3, h4, h5, h6, h7, h8, fun _ => hm⟩, hs⟩

/-- C4 counterexample: `dfZeroVol` passes every filter except volume (shown
by the detection succeeding with the volume filter off), its trailing mean
volume is 0 ≤ 0 — and the detector returns `none`, while the claim says a
non-positive mean alone never causes `none`. -/
theorem c4_counterexample :
    detect_three_white_soldiers dfZeroVol cfgVolOnly = none ∧
    (detect_three_white_soldiers dfZeroVol cfgOff).isSome = true := by
  constructor <;> decide!

/-- C4 witness: the amended equivalence applied at a concrete input. -/
theorem c4_witness :
    detect_three_white_soldiers dfZeroVol cfgVolOnly = some (mkLong dfZeroVol cfgVolOnly) ↔
      (detect_three_white_soldiers dfZeroVol { cfgVolOnly with useVol := false } =
          some (mkLong dfZeroVol cfgVolOnly) ∧
        0 < volMean20 dfZeroVol ∧
        cfgVolOnly.volMinRatio * volMean20 dfZeroVol ≤ volLast dfZeroVol) :=
  (c4_volume_guard dfZeroVol cfgVolOnly (mkLong dfZeroVol cfgVolOnly) rfl).1

/-! ### C5 — the MACD tolerance band -/

/-- C5: with the MACD filter enabled, detection succeeds exactly when
detection-without-the-filter succeeds AND the histogram at the last index
exceeds `−macd_tol` (LONG) resp. is below `+macd_tol` (SHORT).  A histogram
on the wrong side of zero but within the tolerance band therefore passes —
the filter is not a strict sign check. -/
theorem c5_macd_tolerance (df : List Candle) (cfg : Config) (s : Signal)
    (hm : cfg.useMacd = true) :
    (detect_three_white_soldiers df cfg = some s ↔
      (detect_three_white_soldiers df { cfg with useMacd := false } = some s ∧
        optGtcB (macdHistLast (closesOf df)) (-cfg.macdTol) = true)) ∧
    (detect_three_black_crows df cfg = some s ↔
      (detect_three_black_crows df { cfg with useMacd := false } = some s ∧
        optLtcB (macdHistLast (closesOf df)) cfg.macdTol = true)) := by
  constructor
  · constructor
    · intro h
      obtain ⟨hlen, hpass, hs⟩ := detect_three_white_soldiers_eq_some_iff.mp h
      obtain ⟨h1, h2, h3, h4, h5, h6, h7, h8, h9⟩ := hpass
      exact ⟨detect_three_white_soldiers_eq_some_iff.mpr
        ⟨hlen, ⟨h1, h2, h3, h4, h5, h6, h7, fun hb => Bool.noConfusion hb, h9⟩, hs⟩,
        h8 hm⟩
    · rintro ⟨h, hband⟩
      obtain ⟨hlen, hpass, hs⟩ := detect_three_white_soldiers_eq_some_iff.mp h
      obtain ⟨h1, h2, h3, h4, h5, h6, h7, -, h9⟩ := hpass
      exact detect_three_white_soldiers_eq_some_iff.mpr
        ⟨hlen, ⟨h1, h2, h3, h4, h5, h6, h7, fun _ => hband, h9⟩, hs⟩
  · constructor
    · intro h
      obtain ⟨hlen, hpass, hs⟩ := detect_three_black_crows_eq_some_iff.mp h
      obtain ⟨h1, h2, h3, h4, h5, h6, h7, h8, h9⟩ := hpass
      exact ⟨detect_three_black_crows_eq_some_iff.mpr
        ⟨hlen, ⟨h1, h2, h3, h4, h5, h6, h7, fun hb => Bool.noConfusion hb, h9⟩, hs⟩,
        h8 hm⟩
    · rintro ⟨h, hband⟩
      obtain ⟨hlen, hpass, hs⟩ := detect_three_black_crows_eq_some_iff.mp h
      obtain ⟨h1, h2, h3, h4, h5, h6, h7, -, h9⟩ := hpass
      exact detect_three_black_crows_eq_some_iff.mpr
        ⟨hlen, ⟨h1, h2, h3, h4, h5, h6, h7, fun _ => hband, h9⟩, hs⟩

/-- C5 witness: the equivalence applied at a concrete series whose histogram
is inside the acceptance band; both sides evaluate. -/
theorem c5_witness :
    detect_three_white_soldiers dfSoldiers cfgMacdOnly = some (mkLong dfSoldiers cfgMacdOnly) :=
  ((c5_macd_tolerance dfSoldiers cfgMacdOnly (mkLong dfSoldiers cfgMacdOnly)
      rfl).1).mpr ⟨by decide!, by decide!⟩

end CandleBot

namespace CandleBot

/-! ### C6 — which index the indicators are computed at -/

/-- C6 (amended): the indicator values used by detection and reported in the
signal are always computed over the full series at its LAST index (the
Python code uses `iloc[-1]` for ema/rsi/macd/atr unconditionally) — the
`use_last_candle` configuration shifts only the 3-candle pattern window,
not the indicator snapshot. -/
theorem c6_indicator_index (df : List Candle) (cfg : Config) (s : Signal) :
    (detect_three_white_soldiers df cfg = some s →
      s.atr = atrLast df ∧ s.ema50 = emaLast 50 (closesOf df) ∧
      s.ema200 = emaLast 200 (closesOf df) ∧ s.rsi = rsiLast (closesOf df) ∧
      s.macdHist = macdHistLast (closesOf df)) ∧
    (detect_three_black_crows df cfg = some s →
      s.atr = atrLast df ∧ s.ema50 = emaLast 50 (closesOf df) ∧
      s.ema200 = emaLast 200 (closesOf df) ∧ s.rsi = rsiLast (closesOf df) ∧
      s.macdHist = macdHistLast (closesOf df)) := by
  constructor
  · intro h
    obtain ⟨-, -, rfl⟩ := detect_three_white_soldiers_eq_some_iff.mp h
    exact ⟨rfl, rfl, rfl, rfl, rfl⟩
  · intro h
    obtain ⟨-, -, rfl⟩ := detect_three_black_crows_eq_some_iff.mp h
    exact ⟨rfl, rfl, rfl, rfl, rfl⟩

/-- C6 counterexample: on the 61-candle series `dfSoldiersPlus` with the
forming candle excluded (`use_last_candle = false`), the reported ATR is
the ATR at the LAST index, not the value as of the last closed candle
(`dropLast`), contradicting the claim. -/
theorem c6_counterexample :
    (detect_three_white_soldiers dfSoldiersPlus cfgNoLast).isSome = true ∧
    ((detect_three_white_soldiers dfSoldiersPlus cfgNoLast).map
      (fun s => decide (s.atr = atrLast dfSoldiersPlus.dropLast))).getD true
      = false := by
  constructor <;> decide!

/-- C6 witness: the amended theorem applied at a concrete input. -/
theorem c6_witness :
    (mkLong dfSoldiersPlus cfgNoLast).atr = atrLast dfSoldiersPlus ∧
    (mkLong dfSoldiersPlus cfgNoLast).ema50 = emaLast 50 (closesOf dfSoldiersPlus) ∧
    (mkLong dfSoldiersPlus cfgNoLast).ema200 = emaLast 200 (closesOf dfSoldiersPlus) ∧
    (mkLong dfSoldiersPlus cfgNoLast).rsi = rsiLast (closesOf dfSoldiersPlus) ∧
    (mkLong dfSoldiersPlus cfgNoLast).macdHist = macdHistLast (closesOf dfSoldiersPlus) :=
  (c6_indicator_index dfSoldiersPlus cfgNoLast (mkLong dfSoldiersPlus cfgNoLast)).1
    (by decide!)

end CandleBot

namespace CandleBot

/-! ### C2 — the admission cap -/

/-- C2 (amended): `can_open_for_symbol` returns `false` exactly when the
non-zero-position count reaches the cap OR the open-order count reaches the
cap — each count is compared to the cap separately, not their sum.  For
`cap = 1` (the repository default) this coincides with the claimed
sum-based formulation. -/
theorem c2_admission_cap (positions : List Position) (orders : List Order)
    (cap : ℕ) :
    (can_open_for_symbol positions orders cap = false ↔
      cap ≤ nonzeroCount positions ∨ cap ≤ orders.length) ∧
    (cap = 1 → (can_open_for_symbol positions orders cap = false ↔
      cap ≤ nonzeroCount positions + orders.length)) := by
  have hmain : can_open_for_symbol positions orders cap = false ↔
      cap ≤ nonzeroCount positions ∨ cap ≤ orders.length := by
    unfold can_open_for_symbol
    by_cases h1 : cap ≤ nonzeroCount positions
    · simp [h1]
    · by_cases h2 : cap ≤ orders.length <;> simp [h1, h2]
  refine ⟨hmain, fun hcap => ?_⟩
  rw [hmain, hcap]
  omega

/-- C2 counterexample: with cap 2, one open non-zero position and one open
order (sum 2 ≥ cap), the code still admits — the claimed sum-based
equivalence is false. -/
theorem c2_counterexample :
    ¬ (can_open_for_symbol [⟨1⟩] [⟨1, some 0, none⟩] 2 = false ↔
        2 ≤ nonzeroCount [⟨1⟩] + ([⟨1, some 0, none⟩] : List Order).length) := by
  decide!

/-- C2 witness: the cap-1 equivalence applied at a concrete input. -/
theorem c2_witness :
    can_open_for_symbol [⟨1⟩] [] 1 = false ↔
      1 ≤ nonzeroCount [⟨1⟩] + ([] : List Order).length :=
  (c2_admission_cap [⟨1⟩] [] 1).2 rfl

/-! ### C8 — the staleness sweep -/

/-- C8: the sweep cancels an open order iff `now − createdTime` (falling
back to `updatedTime` when `createdTime` is absent) is at least
`ttl_minutes` in milliseconds. -/
theorem c8_staleness_sweep (nowMs ttl : ℤ) (orders : List Order) (o : Order)
    (t : ℤ) (ho : o ∈ orders) :
    (o.createdTime = some t →
      (o ∈ cancel_stale_orders nowMs ttl orders ↔ ttl * 60 * 1000 ≤ nowMs - t)) ∧
    (o.createdTime = none → o.updatedTime = some t →
      (o ∈ cancel_stale_orders nowMs ttl orders ↔ ttl * 60 * 1000 ≤ nowMs - t)) := by
  constructor
  · intro hc
    unfold cancel_stale_orders
    rw [List.mem_filter]
    simp [ho, staleTs, hc]
  · intro hc hu
    unfold cancel_stale_orders
    rw [List.mem_filter]
    simp [ho, staleTs, hc, hu]


/-- C8 witness: with TTL 60 minutes, the 61-minute-old order is cancelled
and the 59-minute-old order is retained. -/
theorem c8_witness :
    ord61 ∈ cancel_stale_orders 3660000 60 [ord61, ord59] ∧
    ord59 ∉ cancel_stale_orders 3660000 60 [ord61, ord59] := by
  constructor
  · exact ((c8_staleness_sweep 3660000 60 [ord61, ord59] ord61 0
      (by decide!)).1 rfl).mpr (by decide!)
  · intro hmem
    have hage := ((c8_staleness_sweep 3660000 60 [ord61, ord59] ord59 120000
      (by decide!)).1 rfl).mp hmem
    exact absurd hage (by decide!)

end CandleBot

namespace CandleBot

/-! ### C7 — first-match-wins across timeframes -/

/-- C7: the per-symbol timeframe loop returns the detection result of the
first timeframe (in list order) that yields a signal, and evaluates exactly
the timeframes up to and including that one — later timeframes are never
invoked; if every timeframe yields `none`, the symbol produces `none` (and
all timeframes were tried). -/
theorem c7_first_match (σ τ : Type) (f : τ → Option σ) :
    (∀ (pre post : List τ) (t : τ) (s : σ),
      (∀ x ∈ pre, f x = none) → f t = some s →
      scanTimeframes f (pre ++ t :: post) = (some s, pre ++ [t])) ∧
    (∀ l : List τ, (∀ x ∈ l, f x = none) →
      scanTimeframes f l = (none, l)) := by
  constructor
  · intro pre post t s
    induction pre with
    | nil =>
      intro _ ht
      simp [scanTimeframes, ht]
    | cons x xs ih =>
      intro hpre ht
      have hx : f x = none := hpre x (List.mem_cons_self _ _)
      have ih' := ih (fun y hy => hpre y (List.mem_cons_of_mem _ hy)) ht
      simp [scanTimeframes, hx, ih']
  · intro l
    induction l with
    | nil =>
      intro _
      rfl
    | cons x xs ih =>
      intro hl
      have hx : f x = none := hl x (List.mem_cons_self _ _)
      have ih' := ih (fun y hy => hl y (List.mem_cons_of_mem _ hy))
      simp [scanTimeframes, hx, ih']


/-- C7 witness: with timeframe list `[30, 60, 240]`, the scan returns the
signal of timeframe 60 and never evaluates 240; with no detecting
timeframe the scan returns `none` after trying the whole list. -/
theorem c7_witness :
    scanTimeframes probeTf [30, 60, 240] = (some 7, [30, 60]) ∧
    scanTimeframes probeTf [15, 20] = (none, [15, 20]) :=
  ⟨(c7_first_match ℕ ℕ probeTf).1 [30] [240] 60 7 (by decide) (by decide),
   (c7_first_match ℕ ℕ probeTf).2 [15, 20] (by decide)⟩

end CandleBot

namespace CandleBot

/-! ### C9 — TURNOVER-mode universe selection -/

/-- C9 (amended): TURNOVER-mode universe selection returns at most `top_n`
symbols, all ending in the quote suffix, the selected rows sorted in
NON-INCREASING (not strictly decreasing — ties are kept) turnover order
with unparsable turnovers last, and an empty ticker response yields an
empty universe. -/
theorem c9_universe_turnover (tickers : List Ticker) (quote : String)
    (topN : ℕ) :
    (get_universe_turnover tickers quote topN).length ≤ topN ∧
    (∀ s ∈ get_universe_turnover tickers quote topN, s.endsWith quote = true) ∧
    List.Pairwise tickGe (universe_rows_turnover tickers quote topN) ∧
    (tickers = [] → get_universe_turnover tickers quote topN = []) := by
  refine ⟨?_, ?_, ?_, ?_⟩
  · unfold get_universe_turnover universe_rows_turnover
    by_cases h : tickers.isEmpty
    · simp [h]
    · simp only [h, if_neg Bool.false_ne_true, List.length_map, List.length_take]
      exact Nat.min_le_left _ _
  · intro s hs
    unfold get_universe_turnover universe_rows_turnover at hs
    by_cases h : tickers.isEmpty
    · simp [h] at hs
    · simp only [h, if_neg Bool.false_ne_true, List.mem_map] at hs
      obtain ⟨row, hrow, rfl⟩ := hs
      have h1 : row ∈ (tickers.filter
          (fun t => t.symbol.endsWith quote)).insertionSort tickGe :=
        List.mem_of_mem_take hrow
      have h2 : row ∈ tickers.filter (fun t => t.symbol.endsWith quote) :=
        (List.perm_insertionSort tickGe _).mem_iff.mp h1
      exact (List.mem_filter.mp h2).2
  · unfold universe_rows_turnover
    by_cases h : tickers.isEmpty
    · simp [h]
    · simp only [h, if_neg Bool.false_ne_true]
      exact List.Pairwise.sublist (List.take_sublist _ _)
        (List.sorted_insertionSort tickGe _)
  · intro h
    subst h
    rfl

/-- C9 counterexample: two tickers with EQUAL turnover both survive
selection, so the selected rows are not STRICTLY sorted by descending
turnover as the claim states. -/
theorem c9_counterexample :
    ¬ List.Pairwise tickGt (universe_rows_turnover
      [⟨"AUSDT", some 5⟩, ⟨"BUSDT", some 5⟩] "USDT" 2) := by
  decide!

/-- C9 witness: an empty ticker response yields an empty universe. -/
theorem c9_witness : get_universe_turnover [] "USDT" 5 = [] :=
  (c9_universe_turnover [] "USDT" 5).2.2.2 rfl

end CandleBot
